import Mathlib

/-!
Verification of the MODI host-side driver (LUXROBO/MODI-Python-API).

Shallow embedding of the parts of the source relevant to the frozen claims:
* `modi/modi.py` — the `MODI` facade: construction timeout, watchdog,
  typed module accessors, `check_pong`.
* `modi/_serial_task.py` — `SerialTask`: port discovery, serial connect,
  `read_serial`, `write_serial`.
* `modi/_executor_thread.py` — `ExecutorThread.run` worker loop.
Queues are modelled as FIFO lists, the serial port as explicit state,
Python exceptions as `Except`.
-/

namespace Modi

/-! ## Facade construction (modi/modi.py, `MODI.__init__`)

`__init__` starts the connection process and executor thread, then blocks on
`module_init_flag.wait(timeout=module_init_timeout)` where the timeout is
`10 if conn_mode.startswith("ser") else 25`; if after the wait the flag is
not set it raises `Exception("Modules are not initialized properly!")`. -/

/-- The Python method `s.startswith(p)`, computed over the character
sequences. -/
def py_startswith (s p : String) : Bool :=
  p.data.isPrefixOf s.data

/-- `module_init_timeout = 10 if conn_mode.startswith("ser") else 25`
(modi/modi.py line 92). -/
def module_init_timeout (conn_mode : String) : Nat :=
  if py_startswith conn_mode "ser" then 10 else 25

/-- Outcome of `module_init_flag.wait(timeout=t)` followed by `is_set()`:
the flag is observed set after the wait exactly when the executor sets it
within the deadline.  `set_at = none` models a flag that is never set. -/
def flag_set_after_wait (set_at : Option Nat) (timeout : Nat) : Bool :=
  match set_at with
  | none => false
  | some t => t ≤ timeout

/-- Result of the tail of `MODI.__init__` (modi/modi.py lines 92-97):
wait on the readiness flag with the mode-dependent timeout, then raise
if the flag is not set, else return normally. -/
def modi_init_wait (conn_mode : String) (set_at : Option Nat) :
    Except String Unit :=
  if !(flag_set_after_wait set_at (module_init_timeout conn_mode)) then
    Except.error "Modules are not initialized properly!"
  else
    Except.ok ()

/-! ## Port discovery (modi/_serial_task.py, `SerialTask`) -/

/-- A `serial.tools.list_ports.ListPortInfo` record; string identity fields
and vid/pid may be `None` on some platforms. -/
structure ListPortInfo where
  device : String
  manufacturer : Option String
  product : Option String
  description : Option String
  vid : Option Nat
  pid : Option Nat
deriving DecidableEq, Repr

/-- The port filter of `SerialTask.list_ports` (modi/_serial_task.py
lines 42-48): manufacturer `"LUXROBO"`, or product or description
`"MODI Network Module"`, or `(vid, pid) == (12254, 2)`. -/
def is_modi_port (port : ListPortInfo) : Bool :=
  port.manufacturer == some "LUXROBO"
  || port.product == some "MODI Network Module"
  || port.description == some "MODI Network Module"
  || (port.vid == some 12254 && port.pid == some 2)

/-- `SerialTask.list_ports` over the system port enumeration `ports`:
append every port passing the identity filter, in enumeration order. -/
def list_ports (ports : List ListPortInfo) : List ListPortInfo :=
  ports.filter is_modi_port

/-- `SerialTask.connect_serial` (modi/_serial_task.py lines 53-62):
with no explicit port, open `list_ports()[0]` if any port matched and raise
`serial.SerialException("No MODI network module connected.")` otherwise;
with an explicit port, open it directly.  The result carries the device
name actually opened. -/
def connect_serial (explicit_port : Option String)
    (ports : List ListPortInfo) : Except String String :=
  match explicit_port with
  | none =>
    match list_ports ports with
    | [] => Except.error "No MODI network module connected."
    | p :: _ => Except.ok p.device
  | some p => Except.ok p

/-! ## Watchdog (modi/modi.py, `MODI.watch_child_process`, lines 100-104)

```
while True:
    if not self._com_proc.is_alive():
        os._exit(1)
    time.sleep(0.05)
```
The loop is modelled over the trace of `is_alive()` observations: each
iteration consumes one observation and either hard-exits the host process
or sleeps and loops.  The result is `some i` when `os._exit(1)` fires at
observation `i`, and `none` when the trace is exhausted with the loop
still spinning. -/

/-- One iteration of `watch_child_process`: exit the host process when the
connection process is not alive, otherwise sleep and keep watching. -/
inductive WatchAction where
  | exit_process
  | keep_watching
deriving DecidableEq, Repr

/-- The body of the `while True` loop of `watch_child_process`. -/
def watch_child_step (alive : Bool) : WatchAction :=
  if !alive then WatchAction.exit_process else WatchAction.keep_watching

/-- `watch_child_process` run over a finite prefix of the liveness trace:
`some i` means `os._exit(1)` was reached at observation index `i`. -/
def watch_child_process : List Bool → Option Nat
  | [] => none
  | alive :: rest =>
    match watch_child_step alive with
    | WatchAction.exit_process => some 0
    | WatchAction.keep_watching =>
      match watch_child_process rest with
      | none => none
      | some i => some (i + 1)

/-! ## Typed accessors (modi/modi.py, `MODI.modules` … `MODI.ultrasonics`) -/

/-- The concrete module classes the facade filters by `isinstance`. -/
inductive ModuleKind where
  | button | dial | display | env | gyro | ir | led | mic | motor
  | speaker | ultrasonic
deriving DecidableEq, Repr

/-- A registered module instance: bus id plus concrete class. -/
structure Module where
  id : Nat
  kind : ModuleKind
deriving DecidableEq, Repr

/-- The facade state the accessors read: `self._modules`. -/
structure MODIState where
  _modules : List Module
deriving DecidableEq, Repr

/-- `MODI.modules` (modi/modi.py lines 114-122): `tuple(self._modules)` —
a fresh immutable snapshot of the registry list, plus the unchanged state. -/
def MODI.modules (s : MODIState) : List Module × MODIState :=
  (s._modules, s)

/-- One `isinstance`-filtering accessor body, shared by the eleven kind
accessors: `tuple([m for m in self.modules if isinstance(m, K)])`. -/
def kind_filter (k : ModuleKind) (s : MODIState) : List Module × MODIState :=
  let snap := MODI.modules s
  ((snap.1.filter fun m => m.kind == k), snap.2)

/-- `MODI.buttons`. -/
def MODI.buttons (s : MODIState) : List Module × MODIState :=
  kind_filter ModuleKind.button s

/-- `MODI.dials`. -/
def MODI.dials (s : MODIState) : List Module × MODIState :=
  kind_filter ModuleKind.dial s

/-- `MODI.displays`. -/
def MODI.displays (s : MODIState) : List Module × MODIState :=
  kind_filter ModuleKind.display s

/-- `MODI.envs`. -/
def MODI.envs (s : MODIState) : List Module × MODIState :=
  kind_filter ModuleKind.env s

/-- `MODI.gyros`. -/
def MODI.gyros (s : MODIState) : List Module × MODIState :=
  kind_filter ModuleKind.gyro s

/-- `MODI.irs`. -/
def MODI.irs (s : MODIState) : List Module × MODIState :=
  kind_filter ModuleKind.ir s

/-- `MODI.leds`. -/
def MODI.leds (s : MODIState) : List Module × MODIState :=
  kind_filter ModuleKind.led s

/-- `MODI.mics`. -/
def MODI.mics (s : MODIState) : List Module × MODIState :=
  kind_filter ModuleKind.mic s

/-- `MODI.motors`. -/
def MODI.motors (s : MODIState) : List Module × MODIState :=
  kind_filter ModuleKind.motor s

/-- `MODI.speakers`. -/
def MODI.speakers (s : MODIState) : List Module × MODIState :=
  kind_filter ModuleKind.speaker s

/-- `MODI.ultrasonics`. -/
def MODI.ultrasonics (s : MODIState) : List Module × MODIState :=
  kind_filter ModuleKind.ultrasonic s

/-- Dispatch from a kind to its facade accessor; used to quantify one
statement over all eleven accessors. -/
def accessor_of_kind (k : ModuleKind) : MODIState → List Module × MODIState :=
  match k with
  | ModuleKind.button => MODI.buttons
  | ModuleKind.dial => MODI.dials
  | ModuleKind.display => MODI.displays
  | ModuleKind.env => MODI.envs
  | ModuleKind.gyro => MODI.gyros
  | ModuleKind.ir => MODI.irs
  | ModuleKind.led => MODI.leds
  | ModuleKind.mic => MODI.mics
  | ModuleKind.motor => MODI.motors
  | ModuleKind.speaker => MODI.speakers
  | ModuleKind.ultrasonic => MODI.ultrasonics

/-! ## Executor worker loop (modi/_executor_thread.py, `ExecutorThread.run`)

```
def run(self):
    self.__exe_task.init_modules()
    while 1:
        self.__exe_task.run(delay=0.001)
```
The loop guard is the constant `1`; no stop or cancellation flag is ever
consulted. -/

/-- The guard of the `while 1` loop in `ExecutorThread.run`, as a function
of a hypothetical stop flag: the source never reads any flag, so the guard
is constantly true. -/
def executor_loop_guard (_stop_flag : Bool) : Bool :=
  true

/-- Whether `ExecutorThread.run` leaves its loop within `fuel` ticks, given
the value of a hypothetical stop flag: each tick re-evaluates the guard and
either runs `self.__exe_task.run(delay=0.001)` again or falls out. -/
def executor_terminates_within (stop_flag : Bool) : Nat → Bool
  | 0 => false
  | fuel + 1 =>
    if executor_loop_guard stop_flag then
      executor_terminates_within stop_flag fuel
    else
      true

/-! ## Facade surface and worker daemon flags (modi/modi.py, class `MODI`) -/

/-- The full method/property surface of class `MODI` as defined in
modi/modi.py (lines 31-281). -/
def MODI_methods : List String :=
  ["__init__", "watch_child_process", "print_topology_map", "modules",
   "buttons", "dials", "displays", "envs", "gyros", "irs", "leds", "mics",
   "motors", "speakers", "ultrasonics", "check_pong", "update_screen",
   "game"]

/-- The daemon flags `MODI.__init__` sets on the workers it starts
(modi/modi.py lines 60, 74, 87): the connection process, the watchdog
thread and the executor thread are all daemonized, so they are killed at
interpreter exit rather than torn down by any facade call. -/
structure WorkerDaemonFlags where
  com_proc_daemon : Bool
  child_watch_daemon : Bool
  exe_thrd_daemon : Bool
deriving DecidableEq, Repr

/-- The flags as set by `MODI.__init__`. -/
def modi_worker_daemon_flags : WorkerDaemonFlags :=
  { com_proc_daemon := true
    child_watch_daemon := true
    exe_thrd_daemon := true }

/-! ## Module registry upsert (spec §4.3/§4.5) -/

/-- A `ModuleAnnounce` packet: announced bus id, arrival timestamp, uuid. -/
structure ModuleAnnounce where
  module_id : Nat
  timestamp : Nat
  uuid : Nat
deriving DecidableEq, Repr

/-- A registry entry: `module_id : [timestamp, uuid]`. -/
structure RegistryEntry where
  module_id : Nat
  timestamp : Nat
  uuid : Nat
deriving DecidableEq, Repr

/-- Modelled from the spec: the `ModuleAnnounce` dispatch arm of
`ExecutorTask` (modi/_executor_task.py is not among the available source
files; only its caller `ExecutorThread` is).  Spec §4.3: "ModuleAnnounce:
upsert ModuleDescriptor (create if absent, else refresh timestamp/state)";
§4.5: "upsert-by-announce (idempotent — re-announcing the same id updates
timestamp/state but does not duplicate)". -/
def upsert_announce (registry : List RegistryEntry) (ann : ModuleAnnounce) :
    List RegistryEntry :=
  if registry.any fun e => e.module_id == ann.module_id then
    registry.map fun e =>
      if e.module_id == ann.module_id then
        { module_id := ann.module_id, timestamp := ann.timestamp,
          uuid := ann.uuid }
      else e
  else
    registry ++ [{ module_id := ann.module_id, timestamp := ann.timestamp,
                   uuid := ann.uuid }]

/-- Processing a whole sequence of `ModuleAnnounce` packets against an
initially empty registry. -/
def process_announces (anns : List ModuleAnnounce) : List RegistryEntry :=
  anns.foldl upsert_announce []

/-- The ids of a registry, in registry order. -/
def registry_ids (registry : List RegistryEntry) : List Nat :=
  registry.map RegistryEntry.module_id

/-! ## Serial read/write (modi/_serial_task.py, lines 81-95)

The cross-domain queues are FIFO lists (front = head).  A Python
`queue.Queue.get_nowait()` that finds the queue empty raises `queue.Empty`,
modelled as `Except.error`. -/

/-- `Queue.get_nowait()` on the outbound queue. -/
def get_nowait (q : List String) : Except Unit (String × List String) :=
  match q with
  | [] => Except.error ()
  | msg :: rest => Except.ok (msg, rest)

/-- `SerialTask.write_serial` (lines 86-95): try to dequeue one buffer;
on `queue.Empty`, `pass`; otherwise write that one buffer to the serial
port.  Returns the remaining queue and the write log of the port. -/
def write_serial (write_q : List String) (written : List String) :
    List String × List String :=
  match get_nowait write_q with
  | Except.error _ => (write_q, written)
  | Except.ok (msg, rest) => (rest, written ++ [msg])

/-- `SerialTask.read_serial` (lines 81-84): when `in_waiting != 0`, read
every waiting byte, decode, and put the chunk on the inbound queue;
otherwise do nothing.  The waiting data of the port is modelled as the decoded
text it holds, with `in_waiting` its length.  Returns the drained port
state and the inbound queue. -/
def read_serial (waiting : String) (read_q : List String) :
    String × List String :=
  if waiting.length != 0 then
    ("", read_q ++ [waiting])
  else
    (waiting, read_q)

/-! ## Easter-egg gate (modi/modi.py, `MODI.check_pong`, lines 212-224) -/

/-- The Python class name of each module kind, as produced by
`type(module).__name__`. -/
def class_name (k : ModuleKind) : String :=
  match k with
  | ModuleKind.button => "Button"
  | ModuleKind.dial => "Dial"
  | ModuleKind.display => "Display"
  | ModuleKind.env => "Env"
  | ModuleKind.gyro => "Gyro"
  | ModuleKind.ir => "Ir"
  | ModuleKind.led => "Led"
  | ModuleKind.mic => "Mic"
  | ModuleKind.motor => "Motor"
  | ModuleKind.speaker => "Speaker"
  | ModuleKind.ultrasonic => "Ultrasonic"

/-- `expected_names` in `check_pong`. -/
def expected_names : List String :=
  ["Button", "Dial", "Led", "Speaker", "Display"]

/-- The guard of `check_pong` deciding whether execution reaches the
`input(...)` call: `is_equal = len(module_names) == len(expected_names)`;
return early unless lengths match and every expected name occurs among the
module names. -/
def check_pong_reaches_input (module_names : List String) : Bool :=
  let is_equal := module_names.length == expected_names.length
  if !is_equal then
    false
  else
    expected_names.all fun name => module_names.contains name

/-- `check_pong` on the facade state: the module names are
`[type(m).__name__ for m in self.modules]`. -/
def MODI.check_pong_input_gate (s : MODIState) : Bool :=
  check_pong_reaches_input ((MODI.modules s).1.map fun m => class_name m.kind)

/-! ## Theorems -/

/-- C1: Facade construction blocks on the readiness flag for a bounded,
mode-dependent deadline — 10 seconds when `conn_mode` starts with `"ser"`,
25 seconds otherwise (so strictly shorter for serial than for non-serial
modes) — and raises the initialization-timeout error exactly when the flag
is not set within that deadline, instead of returning normally. -/
theorem modi_init_bounded_timeout (conn_mode : String) (set_at : Option Nat) :
    module_init_timeout conn_mode ≤ 25 ∧
    (py_startswith conn_mode "ser" = true →
      module_init_timeout conn_mode = 10) ∧
    (py_startswith conn_mode "ser" = false →
      module_init_timeout conn_mode = 25) ∧
    (∀ ser_mode : String, py_startswith ser_mode "ser" = true →
      py_startswith conn_mode "ser" = false →
      module_init_timeout ser_mode < module_init_timeout conn_mode) ∧
    (modi_init_wait conn_mode set_at =
        Except.error "Modules are not initialized properly!" ↔
      flag_set_after_wait set_at (module_init_timeout conn_mode) = false) ∧
    (flag_set_after_wait set_at (module_init_timeout conn_mode) = true ↔
      modi_init_wait conn_mode set_at = Except.ok ()) := by
  refine ⟨?_, ?_, ?_, ?_, ?_, ?_⟩
  · unfold module_init_timeout
    split <;> omega
  · intro h
    simp [module_init_timeout, h]
  · intro h
    simp [module_init_timeout, h]
  · intro ser_mode hser hconn
    simp [module_init_timeout, hser, hconn]
  · unfold modi_init_wait
    cases h : flag_set_after_wait set_at (module_init_timeout conn_mode) <;>
      simp [h]
  · unfold modi_init_wait
    cases h : flag_set_after_wait set_at (module_init_timeout conn_mode) <;>
      simp [h]

/-- C1 witness: with `conn_mode = "ble"` (non-serial) and a flag that is
never set, the timeout is 25 and construction raises; with
`conn_mode = "serial"` and a flag set at 3 seconds, construction returns
normally. -/
theorem modi_init_bounded_timeout_witness :
    module_init_timeout "ble" = 25 ∧
    modi_init_wait "ble" none =
      Except.error "Modules are not initialized properly!" ∧
    module_init_timeout "serial" < module_init_timeout "ble" ∧
    modi_init_wait "serial" (some 3) = Except.ok () :=
  ⟨(modi_init_bounded_timeout "ble" none).2.2.1 (by decide),
   ((modi_init_bounded_timeout "ble" none).2.2.2.2.1).mpr (by decide),
   (modi_init_bounded_timeout "ble" none).2.2.2.1 "serial" (by decide)
     (by decide),
   ((modi_init_bounded_timeout "serial" (some 3)).2.2.2.2.2).mp (by decide)⟩

/-- C2: port discovery selects exactly the enumerated ports matching the
MODI hardware signature (manufacturer `"LUXROBO"`, or product or
description `"MODI Network Module"`, or `(vid, pid) = (12254, 2)`), and
`connect_serial` raises if and only if no explicit port was supplied and no
enumerated port matches; an explicit port, or the first matching port, is
opened otherwise. -/
theorem connect_serial_selects_signature (explicit_port : Option String)
    (ports : List ListPortInfo) :
    (∀ p, p ∈ list_ports ports ↔ p ∈ ports ∧
      (p.manufacturer = some "LUXROBO" ∨
       p.product = some "MODI Network Module" ∨
       p.description = some "MODI Network Module" ∨
       (p.vid = some 12254 ∧ p.pid = some 2))) ∧
    ((∃ e, connect_serial explicit_port ports = Except.error e) ↔
      explicit_port = none ∧ list_ports ports = []) ∧
    (∀ port, explicit_port = some port →
      connect_serial explicit_port ports = Except.ok port) ∧
    (∀ p rest, explicit_port = none → list_ports ports = p :: rest →
      connect_serial explicit_port ports = Except.ok p.device) := by
  refine ⟨?_, ?_, ?_, ?_⟩
  · intro p
    simp only [list_ports, List.mem_filter, is_modi_port, Bool.or_eq_true,
      Bool.and_eq_true, beq_iff_eq]
    tauto
  · cases explicit_port with
    | none =>
      cases h : list_ports ports with
      | nil => simp [connect_serial, h]
      | cons p rest => simp [connect_serial, h]
    | some port => simp [connect_serial]
  · intro port h
    subst h
    rfl
  · intro p rest h hlist
    subst h
    simp [connect_serial, hlist]

/-- C2 witness: a port whose manufacturer is `"LUXROBO"` is selected and
opened when no explicit port is given; with no matching port and no
explicit port, connecting raises. -/
theorem connect_serial_selects_signature_witness :
    connect_serial none
      [{ device := "/dev/ttyUSB0", manufacturer := some "LUXROBO",
         product := none, description := none, vid := none, pid := none }] =
      Except.ok "/dev/ttyUSB0" ∧
    (∃ e, connect_serial none [] = Except.error e) :=
  ⟨(connect_serial_selects_signature none
      [{ device := "/dev/ttyUSB0", manufacturer := some "LUXROBO",
         product := none, description := none, vid := none,
         pid := none }]).2.2.2
      { device := "/dev/ttyUSB0", manufacturer := some "LUXROBO",
        product := none, description := none, vid := none, pid := none }
      [] rfl (by decide),
   ((connect_serial_selects_signature none []).2.1).mpr ⟨rfl, rfl⟩⟩

/-- C3: the watchdog hard-exits the host process exactly at the first
observation of a dead connection worker: it returns `none` (keeps
spinning) iff every liveness observation was true, and whenever it exits
at index `i`, the worker was observed dead at `i` and alive at every
earlier index — execution never continues past a dead-worker observation. -/
theorem watch_child_process_fail_fast (obs : List Bool) :
    (watch_child_process obs = none ↔ ∀ b ∈ obs, b = true) ∧
    (∀ i, watch_child_process obs = some i →
      i < obs.length ∧ obs.getD i true = false ∧
      ∀ j, j < i → obs.getD j true = true) := by
  induction obs with
  | nil =>
    constructor
    · simp [watch_child_process]
    · intro i h
      simp [watch_child_process] at h
  | cons a rest ih =>
    cases a with
    | false =>
      constructor
      · simp [watch_child_process, watch_child_step]
      · intro i h
        simp [watch_child_process, watch_child_step] at h
        subst h
        refine ⟨by simp, by simp, ?_⟩
        intro j hj
        omega
    | true =>
      constructor
      · cases h : watch_child_process rest with
        | none =>
          have hall := ih.1.mp h
          simp only [watch_child_process, watch_child_step, h]
          constructor
          · intro _ b hb
            rcases List.mem_cons.mp hb with hb | hb
            · exact hb
            · exact hall b hb
          · intro _
            rfl
        | some i0 =>
          simp only [watch_child_process, watch_child_step, h]
          constructor
          · intro hcontra
            cases hcontra
          · intro hall
            have hnone : watch_child_process rest = none :=
              ih.1.mpr fun b hb => hall b (List.mem_cons_of_mem _ hb)
            rw [h] at hnone
            cases hnone
      · intro i hi
        cases h : watch_child_process rest with
        | none =>
          simp [watch_child_process, watch_child_step, h] at hi
        | some i0 =>
          simp [watch_child_process, watch_child_step, h] at hi
          obtain ⟨hlen, hdead, hbefore⟩ := ih.2 i0 h
          subst hi
          refine ⟨by simpa using hlen, by simpa using hdead, ?_⟩
          intro j hj
          cases j with
          | zero => simp
          | succ j0 =>
            have hj0 : j0 < i0 := by omega
            simpa using hbefore j0 hj0

/-- C3 witness: on the trace alive-alive-dead the watchdog exits exactly at
index 2, with the worker alive at indices 0 and 1. -/
theorem watch_child_process_fail_fast_witness :
    2 < ([true, true, false] : List Bool).length ∧
    ([true, true, false] : List Bool).getD 2 true = false ∧
    ∀ j, j < 2 → ([true, true, false] : List Bool).getD j true = true :=
  (watch_child_process_fail_fast [true, true, false]).2 2 rfl

/-- The shared body of the eleven kind accessors: `kind_filter` returns an
order-preserving selection of exactly the modules of the requested kind
and leaves the facade state untouched. -/
theorem kind_filter_spec (k : ModuleKind) (s : MODIState) :
    (kind_filter k s).1.Sublist s._modules ∧
    (∀ m, m ∈ (kind_filter k s).1 ↔ m ∈ s._modules ∧ m.kind = k) ∧
    (kind_filter k s).2 = s := by
  refine ⟨List.filter_sublist _, ?_, rfl⟩
  intro m
  simp [kind_filter, MODI.modules, List.mem_filter]

/-- C4: every kind accessor of the facade returns a snapshot containing
exactly the registered modules of that kind, in registry order (the result
is a sublist of the registry), and invoking the accessor — like taking the
`modules` snapshot itself — leaves the registry state unchanged. -/
theorem modi_accessors_filter_by_kind (k : ModuleKind) (s : MODIState) :
    (accessor_of_kind k s).1.Sublist s._modules ∧
    (∀ m, m ∈ (accessor_of_kind k s).1 ↔ m ∈ s._modules ∧ m.kind = k) ∧
    (accessor_of_kind k s).2 = s ∧
    (MODI.modules s).1 = s._modules ∧
    (MODI.modules s).2 = s := by
  have h : accessor_of_kind k s = kind_filter k s := by
    cases k <;> rfl
  rw [h]
  obtain ⟨h1, h2, h3⟩ := kind_filter_spec k s
  exact ⟨h1, h2, h3, rfl, rfl⟩

/-- C4 witness: on a registry holding a button, a dial and a second
button, the button accessor returns exactly the two buttons in registry
order and leaves the state unchanged. -/
theorem modi_accessors_filter_by_kind_witness :
    (accessor_of_kind ModuleKind.button
      ⟨[⟨1, ModuleKind.button⟩, ⟨2, ModuleKind.dial⟩,
        ⟨3, ModuleKind.button⟩]⟩).1.Sublist
      [⟨1, ModuleKind.button⟩, ⟨2, ModuleKind.dial⟩,
       ⟨3, ModuleKind.button⟩] ∧
    (∀ m, m ∈ (accessor_of_kind ModuleKind.button
      ⟨[⟨1, ModuleKind.button⟩, ⟨2, ModuleKind.dial⟩,
        ⟨3, ModuleKind.button⟩]⟩).1 ↔
      m ∈ [⟨1, ModuleKind.button⟩, ⟨2, ModuleKind.dial⟩,
           ⟨3, ModuleKind.button⟩] ∧ m.kind = ModuleKind.button) ∧
    (accessor_of_kind ModuleKind.button
      ⟨[⟨1, ModuleKind.button⟩, ⟨2, ModuleKind.dial⟩,
        ⟨3, ModuleKind.button⟩]⟩).2 =
      ⟨[⟨1, ModuleKind.button⟩, ⟨2, ModuleKind.dial⟩,
        ⟨3, ModuleKind.button⟩]⟩ ∧
    (MODI.modules ⟨[⟨1, ModuleKind.button⟩, ⟨2, ModuleKind.dial⟩,
        ⟨3, ModuleKind.button⟩]⟩).1 =
      [⟨1, ModuleKind.button⟩, ⟨2, ModuleKind.dial⟩,
       ⟨3, ModuleKind.button⟩] ∧
    (MODI.modules ⟨[⟨1, ModuleKind.button⟩, ⟨2, ModuleKind.dial⟩,
        ⟨3, ModuleKind.button⟩]⟩).2 =
      ⟨[⟨1, ModuleKind.button⟩, ⟨2, ModuleKind.dial⟩,
        ⟨3, ModuleKind.button⟩]⟩ :=
  modi_accessors_filter_by_kind ModuleKind.button
    ⟨[⟨1, ModuleKind.button⟩, ⟨2, ModuleKind.dial⟩,
      ⟨3, ModuleKind.button⟩]⟩

/-- The `while 1` loop of `ExecutorThread.run` never leaves its loop,
whatever the value of any stop flag and however many ticks elapse. -/
theorem executor_terminates_within_eq_false (stop_flag : Bool)
    (fuel : Nat) : executor_terminates_within stop_flag fuel = false := by
  induction fuel with
  | zero => rfl
  | succ n ih => simpa [executor_terminates_within, executor_loop_guard]

/-- C5 counterexample: even with the stop flag set, after 1000 ticks the
`ExecutorThread.run` loop has not terminated, because its guard (`while 1`)
evaluates to true regardless of the flag — the loop is an unconditional
infinite loop immune to cancellation, contradicting the claim. -/
theorem executor_loop_not_cancellable_counterexample :
    executor_terminates_within true 1000 = false ∧
    executor_loop_guard true = true ∧
    executor_loop_guard false = true :=
  ⟨executor_terminates_within_eq_false true 1000, rfl, rfl⟩

/-- C5 (amended): the `ExecutorThread.run` worker loop is an unconditional
`while 1` loop that consults no stop/cancellation flag: its guard is true
for every flag value, and the loop never terminates within any number of
ticks, so setting a stop flag does not stop it. -/
theorem executor_loop_unconditional (stop_flag : Bool) (fuel : Nat) :
    executor_loop_guard stop_flag = true ∧
    executor_terminates_within stop_flag fuel = false :=
  ⟨rfl, executor_terminates_within_eq_false stop_flag fuel⟩

/-- C5 amended witness: concrete instance at a set stop flag and 50
ticks. -/
theorem executor_loop_unconditional_witness :
    executor_loop_guard true = true ∧
    executor_terminates_within true 50 = false :=
  executor_loop_unconditional true 50

/-- C6 counterexample: class `MODI` defines no `close` method at all — the
facade exposes no close() operation, contradicting the claim. -/
theorem modi_close_absent_counterexample :
    ("close" ∈ MODI_methods) = False := by
  decide

/-- C6 (amended): the facade exposes neither a `close()` nor an `open()`
operation; instead `MODI.__init__` marks all three workers it starts (the
connection process, the watchdog thread, the executor thread) as daemons,
so teardown happens only when the interpreter exits, and no idempotent
shutdown call exists on the facade. -/
theorem modi_no_close_daemon_workers :
    "close" ∉ MODI_methods ∧
    "open" ∉ MODI_methods ∧
    modi_worker_daemon_flags.com_proc_daemon = true ∧
    modi_worker_daemon_flags.child_watch_daemon = true ∧
    modi_worker_daemon_flags.exe_thrd_daemon = true := by
  refine ⟨?_, ?_, rfl, rfl, rfl⟩ <;> decide

/-- C8: on an empty outbound queue, `write_serial` is a no-op — the queue
and the serial write log are unchanged (the caught `queue.Empty` never
escapes, so the function is total); on a non-empty queue it dequeues and
writes exactly the front buffer. -/
theorem write_serial_empty_noop (q : List String) (written : List String)
    (msg : String) :
    write_serial [] written = ([], written) ∧
    write_serial (msg :: q) written = (q, written ++ [msg]) :=
  ⟨rfl, rfl⟩

/-- C8 witness: concrete instance on the empty queue and on a singleton
queue. -/
theorem write_serial_empty_noop_witness :
    write_serial [] [] = ([], ([] : List String)) ∧
    write_serial ["packet-42"] [] = ([], ["packet-42"]) :=
  write_serial_empty_noop [] [] "packet-42"

/-- C10: `read_serial` publishes a chunk only when the port reports a
non-zero number of waiting bytes, so every item on the inbound queue is a
non-empty decoded string: if the queue held only non-empty chunks before
the call, it still does after. -/
theorem read_serial_chunks_nonempty (waiting : String)
    (read_q : List String) (chunk : String)
    (hq : ∀ c ∈ read_q, c ≠ "")
    (hmem : chunk ∈ (read_serial waiting read_q).2) : chunk ≠ "" := by
  unfold read_serial at hmem
  by_cases h : waiting.length = 0
  · rw [if_neg (by simp [h])] at hmem
    exact hq chunk hmem
  · rw [if_pos (by simp [h])] at hmem
    rcases List.mem_append.mp hmem with hin | hin
    · exact hq chunk hin
    · have hcw : chunk = waiting := by simpa using hin
      subst hcw
      intro hempty
      rw [hempty] at h
      simp at h

/-- C10 witness: with two waiting bytes and an empty inbound queue, the
published chunk is non-empty. -/
theorem read_serial_chunks_nonempty_witness : ("ab" : String) ≠ "" :=
  read_serial_chunks_nonempty "ab" [] "ab" (by simp) (by decide)

/-- Upserting one announce leaves the id sequence unchanged when the id is
already registered, and appends the new id otherwise. -/
theorem registry_ids_upsert (r : List RegistryEntry) (a : ModuleAnnounce) :
    registry_ids (upsert_announce r a) =
      if a.module_id ∈ registry_ids r then registry_ids r
      else registry_ids r ++ [a.module_id] := by
  unfold upsert_announce
  by_cases h : a.module_id ∈ registry_ids r
  · rw [if_pos h]
    have hany : (r.any fun e => e.module_id == a.module_id) = true := by
      rw [List.any_eq_true]
      rcases List.mem_map.mp h with ⟨e, he, heq⟩
      exact ⟨e, he, by simp [heq]⟩
    rw [if_pos hany]
    unfold registry_ids
    rw [List.map_map]
    apply List.map_congr_left
    intro e _
    by_cases heq : e.module_id = a.module_id
    · simp [heq]
    · simp [heq]
  · rw [if_neg h]
    have hany : ¬ (r.any fun e => e.module_id == a.module_id) = true := by
      rw [List.any_eq_true]
      rintro ⟨e, he, heq⟩
      exact h (List.mem_map.mpr ⟨e, he, by simpa using heq⟩)
    rw [if_neg hany]
    unfold registry_ids
    rw [List.map_append]
    rfl

/-- An id is registered after a fold of upserts iff it was registered
before or is announced by some packet of the sequence. -/
theorem mem_registry_ids_foldl (anns : List ModuleAnnounce) :
    ∀ (r : List RegistryEntry) (i : Nat),
      i ∈ registry_ids (anns.foldl upsert_announce r) ↔
        i ∈ registry_ids r ∨ i ∈ anns.map ModuleAnnounce.module_id := by
  induction anns with
  | nil =>
    intro r i
    simp
  | cons a anns ih =>
    intro r i
    rw [List.foldl_cons, ih, registry_ids_upsert]
    by_cases h : a.module_id ∈ registry_ids r
    · rw [if_pos h]
      simp only [List.map_cons, List.mem_cons]
      constructor
      · rintro (hr | hm)
        · exact Or.inl hr
        · exact Or.inr (Or.inr hm)
      · rintro (hr | hia | hm)
        · exact Or.inl hr
        · subst hia
          exact Or.inl h
        · exact Or.inr hm
    · rw [if_neg h]
      simp only [List.mem_append, List.mem_singleton, List.map_cons,
        List.mem_cons]
      tauto

/-- A fold of upserts preserves distinctness of the registered ids. -/
theorem nodup_registry_ids_foldl (anns : List ModuleAnnounce) :
    ∀ r : List RegistryEntry, (registry_ids r).Nodup →
      (registry_ids (anns.foldl upsert_announce r)).Nodup := by
  induction anns with
  | nil =>
    intro r h
    simpa using h
  | cons a anns ih =>
    intro r h
    rw [List.foldl_cons]
    apply ih
    rw [registry_ids_upsert]
    by_cases hmem : a.module_id ∈ registry_ids r
    · rwa [if_pos hmem]
    · rw [if_neg hmem]
      simp [List.nodup_append, h, hmem]

/-- C7: for every sequence of ModuleAnnounce packets, in any order and
with any duplicates, the registry built by processing the whole sequence
holds exactly one entry per distinct announced id: its ids are distinct,
an id is registered iff announced, and the registry size equals the number
of distinct announced ids. -/
theorem registry_announce_idempotent_upsert (anns : List ModuleAnnounce) :
    (registry_ids (process_announces anns)).Nodup ∧
    (∀ i, i ∈ registry_ids (process_announces anns) ↔
      i ∈ anns.map ModuleAnnounce.module_id) ∧
    (process_announces anns).length =
      (anns.map ModuleAnnounce.module_id).dedup.length := by
  have hnd : (registry_ids (process_announces anns)).Nodup :=
    nodup_registry_ids_foldl anns [] (by simp [registry_ids])
  have hmem : ∀ i, i ∈ registry_ids (process_announces anns) ↔
      i ∈ anns.map ModuleAnnounce.module_id := by
    intro i
    unfold process_announces
    rw [mem_registry_ids_foldl]
    simp [registry_ids]
  refine ⟨hnd, hmem, ?_⟩
  have hperm : (registry_ids (process_announces anns)).Perm
      (anns.map ModuleAnnounce.module_id).dedup := by
    rw [List.perm_ext_iff_of_nodup hnd (List.nodup_dedup _)]
    intro i
    rw [hmem i, List.mem_dedup]
  calc (process_announces anns).length
      = (registry_ids (process_announces anns)).length := by
        simp [registry_ids]
    _ = (anns.map ModuleAnnounce.module_id).dedup.length := hperm.length_eq

/-- C7 witness: announcing ids 1, 2, then 1 again (with a new timestamp)
yields a registry of exactly 2 entries. -/
theorem registry_announce_idempotent_upsert_witness :
    (process_announces [⟨1, 0, 7⟩, ⟨2, 1, 8⟩, ⟨1, 2, 7⟩]).length = 2 :=
  (registry_announce_idempotent_upsert
    [⟨1, 0, 7⟩, ⟨2, 1, 8⟩, ⟨1, 2, 7⟩]).2.2.trans (by decide)

/-- The early-return chain of `check_pong` reaches the `input(...)` call
exactly when the module-name list is a permutation of
`["Button", "Dial", "Led", "Speaker", "Display"]`: five names containing
all five distinct expected names are exactly one of each. -/
theorem check_pong_reaches_input_iff_perm (names : List String) :
    check_pong_reaches_input names = true ↔ names.Perm expected_names := by
  simp only [check_pong_reaches_input]
  constructor
  · intro h
    split at h
    · exact absurd h (by simp)
    · rename_i hcond
      have hlen : names.length = expected_names.length := by
        by_contra hne
        apply hcond
        simp [hne]
      have hsub : expected_names ⊆ names := by
        intro x hx
        have hx2 := (List.all_eq_true.mp h) x hx
        exact List.mem_of_elem_eq_true hx2
      have hnd : expected_names.Nodup := by decide
      have hsp : expected_names.Subperm names :=
        List.subperm_of_subset hnd hsub
      exact (hsp.perm_of_length_le (le_of_eq hlen)).symm
  · intro hperm
    have hlen := hperm.length_eq
    rw [if_neg (by simp [hlen])]
    rw [List.all_eq_true]
    intro x hx
    exact List.elem_eq_true_of_mem (hperm.symm.subset hx)

/-- C9: facade construction reaches the blocking interactive stdin read in
`check_pong` (called at the end of `__init__`) exactly when the connected
module list consists of five modules whose class names are one each of
Button, Dial, Led, Speaker, Display; every other configuration returns
early without reading input. -/
theorem modi_check_pong_gate_iff (s : MODIState) :
    MODI.check_pong_input_gate s = true ↔
      ((MODI.modules s).1.map fun m => class_name m.kind).Perm
        expected_names := by
  unfold MODI.check_pong_input_gate
  exact check_pong_reaches_input_iff_perm _

/-- C9 witness: a registry holding exactly one button, dial, led, speaker
and display reaches the interactive prompt; adding a motor instead of the
display does not. -/
theorem modi_check_pong_gate_iff_witness :
    MODI.check_pong_input_gate
      ⟨[⟨1, ModuleKind.button⟩, ⟨2, ModuleKind.dial⟩, ⟨3, ModuleKind.led⟩,
        ⟨4, ModuleKind.speaker⟩, ⟨5, ModuleKind.display⟩]⟩ = true :=
  (modi_check_pong_gate_iff
    ⟨[⟨1, ModuleKind.button⟩, ⟨2, ModuleKind.dial⟩, ⟨3, ModuleKind.led⟩,
      ⟨4, ModuleKind.speaker⟩, ⟨5, ModuleKind.display⟩]⟩).mpr (by decide)

end Modi
